import Mathlib

/-!
Shallow embedding of the Search Aggregation Engine
(`app/services/search_engine.py`) and the Deficit-Driven Collector
(`app/services/deficit_collector.py`) of the lead-generation repository.

Modelling conventions:
* Python `dict` values become association lists (`List (String × _)`);
  a missing-key access (`KeyError`) is modelled explicitly.
* The external Google CSE endpoint (`aiohttp` exchange inside
  `call_google_search_api`, including `build_query` rewriting and item
  normalisation) is abstracted as an environment function
  `Source : String → Nat → Nat → List ResultItem` mapping
  (query, 1-based start index, clamped page size) to the normalised items;
  the `safe_num = max(1, min(10, results_to_fetch))` clamp performed by the
  code itself is kept in the model.
* The LLM planner calls (`prompt_to_queries`, `diversify_prompt`) are
  abstracted as functions `String → List String` from the prompt.
* `datetime.now()` is modelled as an explicit `now : Nat` argument;
  `hashlib.md5(...).hexdigest()` in `generate_session_id` is modelled as the
  identity on the hashed base string (the claims depend only on the digest
  being a deterministic function of its input).
* Python exceptions are modelled by `PyError`; an operation returns the
  mutated state together with an optional error, mirroring in-place
  mutation that persists past a raise.
-/

/-- Normalised search item produced by `call_google_search_api`
(`title`, `link`, `snippet`, `source`, `rank`). The `link` field is the
deduplication key. -/
structure ResultItem where
  title : String
  link : String
  snippet : String
  source : String
  rank : Nat
deriving DecidableEq, Repr

/-- Python exceptions raised by the modelled code: `KeyError` (missing dict
key), `ValueError` (unknown session in `get_more_results`), `NameError`
(`inferred_locations` referenced in the fallback branch of
`search_with_offset` when the session was not created in the same call),
and `GoogleSearchError` from the source client. -/
inductive PyError where
  | keyError
  | valueError (msg : String)
  | nameError
  | googleSearchError (msg : String)
deriving DecidableEq, Repr

/-- Abstraction of the external paginated source: query, 1-based start
index, page size (already clamped by the caller) to normalised items. -/
abbrev Source : Type := String → Nat → Nat → List ResultItem

/-- One outgoing request to the external source:
(query, 1-based start index, page size requested). -/
abbrev SourceCall : Type := String × Nat × Nat

/-- Association-list lookup, first binding wins (Python `d[k]` read). -/
def lookupAssoc {α : Type} : List (String × α) → String → Option α
  | [], _ => none
  | (k, v) :: rest, q => if k = q then some v else lookupAssoc rest q

/-- Association-list update-or-append (Python `d[k] = v`). -/
def insertAssoc {α : Type} : List (String × α) → String → α → List (String × α)
  | [], k, v => [(k, v)]
  | (k', v') :: rest, k, v =>
    if k' = k then (k, v) :: rest else (k', v') :: insertAssoc rest k v

/-- `d[k] += n` on a `String → Nat` dict: `none` models the `KeyError`
raised when `k` is absent. -/
def bumpAssoc : List (String × Nat) → String → Nat → Option (List (String × Nat))
  | [], _, _ => none
  | (k, v) :: rest, q, n =>
    if k = q then some ((k, v + n) :: rest)
    else (bumpAssoc rest q n).map (fun r => (k, v) :: r)

/-- `SearchSession` state (constructor fields of the Python class). -/
structure SearchSession where
  session_id : String
  original_prompt : String
  queries : List String
  results : List ResultItem
  query_positions : List (String × Nat)
  created_at : Nat
  last_accessed : Nat
  total_api_calls : Nat
  is_exhausted : Bool
  last_returned_offset : Nat
deriving DecidableEq, Repr

/-- `SearchSession.__init__`: empty result buffer, one zero cursor per
query (the Python dict comprehension `{q: 0 for q in queries}`). -/
def SearchSession.new (session_id original_prompt : String)
    (queries : List String) (now : Nat) : SearchSession :=
  { session_id := session_id
    original_prompt := original_prompt
    queries := queries
    results := []
    query_positions := queries.map (fun q => (q, 0))
    created_at := now
    last_accessed := now
    total_api_calls := 0
    is_exhausted := false
    last_returned_offset := 0 }

/-- `SearchSession.add_results`: extend `results`, advance the query's
cursor by the raw fetched count, touch `last_accessed`, count the API
call. `none` models the `KeyError` when `query` has no cursor entry. -/
def SearchSession.add_results (s : SearchSession) (new_results : List ResultItem)
    (query : String) (fetched_count : Nat) (now : Nat) : Option SearchSession :=
  (bumpAssoc s.query_positions query fetched_count).map fun qp =>
    { s with results := s.results ++ new_results
             query_positions := qp
             last_accessed := now
             total_api_calls := s.total_api_calls + 1 }

/-- `SearchSession.get_results`: touch `last_accessed` and return the slice
`results[offset : offset + limit]`. -/
def SearchSession.get_results (s : SearchSession) (offset limit : Nat) (now : Nat) :
    List ResultItem × SearchSession :=
  ((s.results.drop offset).take limit, { s with last_accessed := now })

/-- `SearchSession.needs_more_results`. -/
def SearchSession.needs_more_results (s : SearchSession) (required_count : Nat) : Bool :=
  s.results.length < required_count && !s.is_exhausted

/-- `call_google_search_api` as seen through the environment: the code
clamps the page size to `max(1, min(10, results_to_fetch))` before issuing
the request; the HTTP exchange and item normalisation are the
environment's. -/
def callGoogleSearchApi (env : Source) (query : String)
    (start_index : Nat) (results_to_fetch : Nat) : List ResultItem :=
  env query start_index (max 1 (min 10 results_to_fetch))

/-- The dedup step of the growth loop:
`existing_links = {r["link"] for r in session.results}` followed by
`[res for res in new_results if res["link"] not in existing_links]`. -/
def filteredBatch (s : SearchSession) (new_results : List ResultItem) : List ResultItem :=
  new_results.filter (fun r => !((s.results.map (fun r => r.link)).contains r.link))

/-- Result of one growth invocation: the mutated session, the outgoing
source requests it issued, and the exception it raised, if any. -/
structure FetchOut where
  session : SearchSession
  calls : List SourceCall
  err : Option PyError
deriving DecidableEq, Repr

/-- The `for query in session.queries:` loop body of
`SearchEngine.fetch_more_results`: skip a query whose cursor reached 100,
otherwise request `min(10, needed)` items at cursor + 1, drop items whose
link is already in `results`, append the remainder and advance the cursor
by the raw batch length. -/
def fetchLoop (env : Source) (now : Nat) :
    List String → Int → SearchSession → FetchOut
  | [], _, s => ⟨s, [], none⟩
  | query :: rest, needed, s =>
    if needed ≤ 0 then ⟨s, [], none⟩
    else
      match lookupAssoc s.query_positions query with
      | none => ⟨s, [], some .keyError⟩
      | some current_position =>
        if 100 ≤ current_position then fetchLoop env now rest needed s
        else
          let batch_size : Nat := (min 10 needed).toNat
          let new_results := callGoogleSearchApi env query (current_position + 1) batch_size
          let call : SourceCall := (query, current_position + 1, batch_size)
          if new_results.isEmpty then
            let out := fetchLoop env now rest needed s
            ⟨out.session, call :: out.calls, out.err⟩
          else
            let filtered_results := filteredBatch s new_results
            match s.add_results filtered_results query new_results.length now with
            | none => ⟨s, [call], some .keyError⟩
            | some s1 =>
              let out := fetchLoop env now rest (needed - filtered_results.length) s1
              ⟨out.session, call :: out.calls, out.err⟩

/-- `SearchEngine.fetch_more_results`: no-op when the buffer already holds
`target_count` items or the session is exhausted; otherwise one pass over
`queries`, then mark the session exhausted if the pass added nothing (the
exhaustion check is skipped when the pass raised). -/
def fetch_more_results (env : Source) (now : Nat)
    (s : SearchSession) (target_count : Nat) : FetchOut :=
  let current_count := s.results.length
  if target_count ≤ current_count || s.is_exhausted then ⟨s, [], none⟩
  else
    let out := fetchLoop env now s.queries ((target_count : Int) - current_count) s
    match out.err with
    | some _ => out
    | none =>
      if out.session.results.length = current_count then
        ⟨{ out.session with is_exhausted := true }, out.calls, none⟩
      else out

/-- The engine's process-wide session store (`self.sessions`). -/
structure SearchEngine where
  sessions : List (String × SearchSession)
deriving DecidableEq, Repr

/-- Store a session under its id (`self.sessions[session_id] = session`).
Python mutates the stored object in place; the model writes the final
session value back into the store. -/
def SearchEngine.put (eng : SearchEngine) (session_id : String)
    (s : SearchSession) : SearchEngine :=
  { sessions := insertAssoc eng.sessions session_id s }

/-- `SearchEngine.generate_session_id`: md5 of
`f"{user_id}_{prompt}_{date.today()}"`; the digest is modelled as the
identity on the hashed base string. -/
def generate_session_id (user_id prompt : String) (today : Nat) : String :=
  user_id ++ "_" ++ prompt ++ "_" ++ toString today

/-- The slice plus the pagination/session metadata that either public
operation returns (the fields of the returned dict the claims refer to). -/
structure PageOut where
  results : List ResultItem
  offset : Nat
  results_returned : Nat
  total_results_available : Nat
  has_more : Bool
  next_offset : Option Nat
  is_exhausted : Bool
deriving DecidableEq, Repr

/-- The conditional growth step shared verbatim by both public
operations: `if session.needs_more_results(required_total): await
self.fetch_more_results(session, required_total + 10)`. -/
def grownSession (env : Source) (now : Nat) (s : SearchSession)
    (required_total : Nat) : SearchSession × Option PyError :=
  if s.needs_more_results required_total then
    let out := fetch_more_results env now s (required_total + 10)
    (out.session, out.err)
  else (s, none)

/-- The serving tail both public operations end with (the Python bodies
duplicate it verbatim, `get_more_results` instantiating
`offset = last_returned_offset`): conditional growth, slice, update
`last_returned_offset`, store the session, and assemble the returned
pagination payload. -/
def servePage (env : Source) (now : Nat) (eng : SearchEngine) (session_id : String)
    (s : SearchSession) (offset num_results : Nat) : (Except PyError PageOut) × SearchEngine :=
  match grownSession env now s (offset + num_results) with
  | (sG, some err) => (.error err, eng.put session_id sG)
  | (sG, none) =>
    let sliced := sG.get_results offset num_results now
    let sliced_results := sliced.1
    let sFinal : SearchSession := { sliced.2 with last_returned_offset := offset + sliced_results.length }
    let has_more :=
      decide (offset + sliced_results.length < sFinal.results.length) || !sFinal.is_exhausted
    (.ok { results := sliced_results
           offset := offset
           results_returned := sliced_results.length
           total_results_available := sFinal.results.length
           has_more := has_more
           next_offset := if has_more then some (offset + sliced_results.length) else none
           is_exhausted := sFinal.is_exhausted },
     eng.put session_id sFinal)

/-- `SearchEngine.search_with_offset`. The branches mirror the Python
control flow: create-and-grow when the session id is new; the
zero-results diversification fallback (which raises `NameError` when the
session pre-existed, because `inferred_locations` is only bound in the
creation branch); the conditional extra growth; slicing and the
`last_returned_offset` update. -/
def search_with_offset (env : Source) (plan diversify : String → List String)
    (now today : Nat) (eng : SearchEngine) (prompt user_id : String)
    (offset num_results : Nat) : (Except PyError PageOut) × SearchEngine :=
  let session_id := generate_session_id user_id prompt today
  match lookupAssoc eng.sessions session_id with
  | none =>
    let queries := plan prompt
    let s0 := SearchSession.new session_id prompt queries now
    let out := fetch_more_results env now s0 (offset + num_results + 10)
    match out.err with
    | some err => (.error err, eng.put session_id out.session)
    | none =>
      if out.session.results.length = 0 then
        let diversified := diversify prompt
        let sReplaced := { out.session with queries := diversified }
        let out2 := fetch_more_results env now sReplaced (offset + num_results + 10)
        match out2.err with
        | some err => (.error err, eng.put session_id out2.session)
        | none => servePage env now eng session_id out2.session offset num_results
      else servePage env now eng session_id out.session offset num_results
  | some s =>
    if s.results.length = 0 then (.error .nameError, eng.put session_id s)
    else servePage env now eng session_id s offset num_results

/-- `SearchEngine.get_more_results`: `ValueError` for an unknown session,
otherwise the continuation variant of the slicing logic with implicit
offset `last_returned_offset`. -/
def get_more_results (env : Source) (now : Nat) (eng : SearchEngine)
    (session_id : String) (num_results : Nat) : (Except PyError PageOut) × SearchEngine :=
  match lookupAssoc eng.sessions session_id with
  | none => (.error (.valueError "Session not found or expired"), eng)
  | some s => servePage env now eng session_id s s.last_returned_offset num_results

/-- Terminal outcomes of `DeficitCollector.collect_until_fulfilled`.
They correspond to the three `break` sites of the `while True` loop:
deficit met, `max_total_pull` hit while the buffer was empty, and an
empty continuation fetch; `out_of_fuel` is the model's marker for runs
longer than the supplied fuel. -/
inductive Outcome where
  | target_met
  | cap_reached
  | source_exhausted
  | out_of_fuel
deriving DecidableEq, Repr

/-- Mutable state of one `collect_until_fulfilled` run: the candidate
buffer (`results`), `result_index`, `total_consumed`, plus instrumentation
counters for the externally visible effects: how many times the job row
was read (`db_reads`, indexing the authoritative-count oracle), how many
continuation calls went to the search engine (`engine_calls`), and the
URL batches submitted to the extractor (`submitted`). -/
structure CollectorState where
  results : List ResultItem
  result_index : Nat
  total_consumed : Nat
  db_reads : Nat
  engine_calls : Nat
  submitted : List (List String)
deriving DecidableEq, Repr

/-- Initial collector state for a run started with `initial_results`. -/
def initCollector (initial_results : List ResultItem) : CollectorState :=
  { results := initial_results
    result_index := 0
    total_consumed := 0
    db_reads := 0
    engine_calls := 0
    submitted := [] }

/-- The chunk-submission tail of one loop iteration: take
`min(max_chunk_size, max(1, int(deficit * overfetch_factor)))` candidates
at `result_index`, advance `result_index` and `total_consumed` by the
chunk length, read the pre-count, submit the chunk's URLs to the
extractor, read the post-count. `overfetch_factor` is the default `2.0`,
for which `int(deficit * 2.0) = 2 * deficit` exactly; the pre/post counts
feed only the log line. -/
def chunkPhase (max_chunk_size : Nat) (deficit : Int)
    (st : CollectorState) : CollectorState :=
  let chunk_size : Nat := min max_chunk_size (max 1 (deficit * 2).toNat)
  let current_chunk := (st.results.drop st.result_index).take chunk_size
  let st1 := { st with result_index := st.result_index + current_chunk.length
                       total_consumed := st.total_consumed + current_chunk.length }
  let urls := current_chunk.map (fun r => r.link)
  let st2 := { st1 with db_reads := st1.db_reads + 1 }
  let st3 := { st2 with submitted := st2.submitted ++ [urls] }
  { st3 with db_reads := st3.db_reads + 1 }

/-- One iteration of the `while True` body of `collect_until_fulfilled`:
read the authoritative generated count (`gen` indexed by the running
read counter), terminate on `deficit <= 0`; when the buffer is drained,
terminate on the `max_total_pull` cap or fetch
`min(max_chunk_size * 2, max(10, int(deficit * overfetch_factor)))` more
candidates from the engine continuation (`fetchB` indexed by the call
counter), terminating if that returns nothing; otherwise fall through to
the chunk submission. `Sum.inl` is a `break`, `Sum.inr` continues. -/
def collectStep (gen : Nat → Nat) (fetchB : Nat → Nat → List ResultItem)
    (num_results max_total_pull max_chunk_size : Nat)
    (st : CollectorState) : (Outcome × CollectorState) ⊕ CollectorState :=
  let current_generated := gen st.db_reads
  let st := { st with db_reads := st.db_reads + 1 }
  let deficit : Int := (num_results : Int) - (current_generated : Int)
  if deficit ≤ 0 then .inl (.target_met, st)
  else if st.results.length ≤ st.result_index then
    if max_total_pull ≤ st.total_consumed then .inl (.cap_reached, st)
    else
      let fetch_n : Nat := min (max_chunk_size * 2) (max 10 (deficit * 2).toNat)
      let new_results := fetchB st.engine_calls fetch_n
      let st := { st with engine_calls := st.engine_calls + 1 }
      if new_results.isEmpty then .inl (.source_exhausted, st)
      else .inr (chunkPhase max_chunk_size deficit
                   { st with results := st.results ++ new_results })
  else .inr (chunkPhase max_chunk_size deficit st)

/-- Fuel-indexed unfolding of the `while True` loop of
`collect_until_fulfilled`. -/
def collectLoop (gen : Nat → Nat) (fetchB : Nat → Nat → List ResultItem)
    (num_results max_total_pull max_chunk_size : Nat) :
    Nat → CollectorState → Outcome × CollectorState
  | 0, st => (.out_of_fuel, st)
  | fuel + 1, st =>
    match collectStep gen fetchB num_results max_total_pull max_chunk_size st with
    | .inl done => done
    | .inr st' => collectLoop gen fetchB num_results max_total_pull max_chunk_size fuel st'

/-- A sequence of growth passes (`fetch_more_results` invocations) on one
session; `none` when a pass raised. -/
def runGrowths (env : Source) (now : Nat) :
    List Nat → SearchSession → Option SearchSession
  | [], s => some s
  | t :: ts, s =>
    let out := fetch_more_results env now s t
    match out.err with
    | some _ => none
    | none => runGrowths env now ts out.session

/-- One public pagination request against the engine: explicit-offset or
continuation. -/
inductive ApiCall where
  | swo (offset count : Nat)
  | gmr (count : Nat)
deriving DecidableEq, Repr

/-- Run a sequence of public pagination calls for one (prompt, user)
session, collecting each returned slice. The third component records
whether every explicit-offset call continued exactly at the session's
current `last_returned_offset` (offset 0 for the creating call) — the
"strictly increasing, contiguous offsets" discipline; continuation calls
are contiguous by construction. `none` when some call raised. -/
def runCalls (env : Source) (plan diversify : String → List String)
    (now today : Nat) (prompt user : String) :
    List ApiCall → SearchEngine → Option (List (List ResultItem) × SearchEngine × Bool)
  | [], eng => some ([], eng, true)
  | c :: cs, eng =>
    let sid := generate_session_id user prompt today
    let contig : Bool :=
      match c with
      | .swo o _ =>
        match lookupAssoc eng.sessions sid with
        | some s => o = s.last_returned_offset
        | none => o = 0
      | .gmr _ => true
    let step :=
      match c with
      | .swo o n => search_with_offset env plan diversify now today eng prompt user o n
      | .gmr n => get_more_results env now eng sid n
    match step with
    | (.error _, _) => none
    | (.ok out, eng') =>
      match runCalls env plan diversify now today prompt user cs eng' with
      | none => none
      | some (slices, engF, b) => some (out.results :: slices, engF, contig && b)

/-- Contract of the external paginated source implied by its hard result
window (at most 100 cumulative results per query): a request at 1-based
`start` can return at most `101 - start` items. -/
def SourceCapped (env : Source) : Prop :=
  ∀ q start n, (env q start n).length ≤ 101 - start

/-- Contract of the external source: a single returned page never repeats
a link ("ranked, deduplicatable items"). -/
def BatchNodup (env : Source) : Prop :=
  ∀ q start n, ((env q start n).map (fun r => r.link)).Nodup

/-- A source that returns no results for any request. -/
def EmptySource (env : Source) : Prop :=
  ∀ q start n, env q start n = []

/-- Every active query of the session has a cursor entry (true for any
session whose `queries` list has not been swapped from under its
`query_positions` dict). -/
def QueriesTracked (s : SearchSession) : Prop :=
  ∀ q ∈ s.queries, (lookupAssoc s.query_positions q).isSome = true

/-- The claimed cursor invariant: every per-query cursor is at most 100. -/
def PosCapped (s : SearchSession) : Prop :=
  ∀ kv ∈ s.query_positions, kv.2 ≤ 100

/-- Relation between the session as observed by a pagination call and a
served accumulation: the concatenation of all slices served so far is an
initial segment of the buffer of length `last_returned_offset`, and the
buffer has no repeated link. -/
def SessionInv (sid : String) (eng : SearchEngine) (acc : List ResultItem) : Prop :=
  match lookupAssoc eng.sessions sid with
  | none => acc = []
  | some s =>
      acc = s.results.take s.last_returned_offset
      ∧ s.last_returned_offset ≤ s.results.length
      ∧ (s.results.map (fun r => r.link)).Nodup

/- Concrete scenario data used by the counterexamples and witnesses. -/

/-- A source that never returns anything. -/
def envE : Source := fun _ _ _ => []

/-- Fixed primary planner output. -/
def planA : String → List String := fun _ => ["qa"]

/-- Fixed diversified (fallback) planner output. -/
def divB : String → List String := fun _ => ["qb"]

/-- A sample result item. -/
def itB : ResultItem := { title := "t", link := "http://b", snippet := "s", source := "b.com", rank := 1 }

/-- A source on which the primary query `"qa"` has no hits while the
diversified query `"qb"` has one. -/
def envC1 : Source := fun q _ _ => if q = "qb" then [itB] else []

/-- A source returning a single fixed item for every request. -/
def envOne : Source := fun _ _ _ => [itB]

/-- `i`-th distinct sample item. -/
def mkItem (i : Nat) : ResultItem := { title := "t", link := "l" ++ toString i, snippet := "", source := "", rank := i }

/-- A session that already buffered ten distinct results, of which the
first six were served through the continuation operation. -/
def sessC4 : SearchSession :=
  { session_id := generate_session_id "u" "p" 0
    original_prompt := "p"
    queries := ["qa"]
    results := (List.range 10).map mkItem
    query_positions := [("qa", 10)]
    created_at := 0
    last_accessed := 0
    total_api_calls := 1
    is_exhausted := false
    last_returned_offset := 6 }

/-- An engine holding exactly `sessC4`. -/
def engC4 : SearchEngine := ⟨[(generate_session_id "u" "p" 0, sessC4)]⟩

/-- Authoritative-count oracle that never accepts anything (zero acceptance). -/
def gen0 : Nat → Nat := fun _ => 0

/-- Engine continuation stub with unlimited identical candidates: every
continuation call returns exactly the requested number of items. -/
def fetchRep : Nat → Nat → List ResultItem := fun _ n => List.replicate n itB

/-- The session as it stands after one growth pass of the C2 witness
scenario (empty source, single query): untouched except for the
exhaustion flag. -/
def c2wSession : SearchSession :=
  { session_id := "s"
    original_prompt := "p"
    queries := ["q"]
    results := []
    query_positions := [("q", 0)]
    created_at := 0
    last_accessed := 0
    total_api_calls := 0
    is_exhausted := true
    last_returned_offset := 0 }

/-- Fresh session used by the C6 witness. -/
def sessC6 : SearchSession := SearchSession.new "s" "p" ["q"] 0

/-- `sessC6` after its first (empty) growth pass marked it exhausted. -/
def sessC6x : SearchSession := { sessC6 with is_exhausted := true }

/-- Session stored for the C7-amended witness: one buffered item, already
exhausted, nothing served yet. -/
def sW : SearchSession :=
  { session_id := generate_session_id "u" "p" 0
    original_prompt := "p"
    queries := ["qa"]
    results := [itB]
    query_positions := [("qa", 1)]
    created_at := 0
    last_accessed := 0
    total_api_calls := 1
    is_exhausted := true
    last_returned_offset := 0 }

/-- `sW` after one slice of length 1 was served. -/
def sW1 : SearchSession := { sW with last_returned_offset := 1 }

/-- Engine holding exactly `sW`. -/
def engW : SearchEngine := ⟨[(generate_session_id "u" "p" 0, sW)]⟩

/-- Engine holding exactly `sW1`. -/
def engW1 : SearchEngine := ⟨[(generate_session_id "u" "p" 0, sW1)]⟩

/-- Page returned by both identical calls of the C7-amended witness. -/
def pageW : PageOut :=
  { results := [itB]
    offset := 0
    results_returned := 1
    total_results_available := 1
    has_more := false
    next_offset := none
    is_exhausted := true }

/-- `sessC4` after the C4-amended witness continuation call served
items 6 and 7. -/
def sessC4after : SearchSession := { sessC4 with last_returned_offset := 8 }

/-- Engine holding exactly `sessC4after`. -/
def engC4after : SearchEngine := ⟨[(generate_session_id "u" "p" 0, sessC4after)]⟩

/-- Page returned by the C4-amended witness continuation call. -/
def c4wPage : PageOut :=
  { results := [mkItem 6, mkItem 7]
    offset := 6
    results_returned := 2
    total_results_available := 10
    has_more := true
    next_offset := some 8
    is_exhausted := false }

/-- Session produced by the single call of the C5 witness run. -/
def c5wSession : SearchSession :=
  { session_id := generate_session_id "u" "p" 0
    original_prompt := "p"
    queries := ["qa"]
    results := [itB]
    query_positions := [("qa", 1)]
    created_at := 0
    last_accessed := 0
    total_api_calls := 1
    is_exhausted := false
    last_returned_offset := 1 }

/-- Slices collected by the C5 witness run. -/
def c5wSlices : List (List ResultItem) := [[itB]]

/-- Final engine of the C5 witness run. -/
def c5wEng : SearchEngine := ⟨[(generate_session_id "u" "p" 0, c5wSession)]⟩

/-! Helper lemmas about the association-list operations. -/

theorem lookupAssoc_insertAssoc {α : Type} (l : List (String × α)) (k : String) (v : α) :
    lookupAssoc (insertAssoc l k v) k = some v := by
  induction l with
  | nil => simp [insertAssoc, lookupAssoc]
  | cons kv rest ih =>
    obtain ⟨k', v'⟩ := kv
    by_cases h : k' = k
    · simp [insertAssoc, lookupAssoc, h]
    · simp [insertAssoc, lookupAssoc, h, ih]

theorem bumpAssoc_of_lookup {l : List (String × Nat)} {q : String} {p : Nat} (n : Nat)
    (h : lookupAssoc l q = some p) :
    ∃ l', bumpAssoc l q n = some l'
      ∧ lookupAssoc l' q = some (p + n)
      ∧ (∀ q', q' ≠ q → lookupAssoc l' q' = lookupAssoc l q')
      ∧ ∀ kv, kv ∈ l' → kv ∈ l ∨ kv = (q, p + n) := by
  induction l with
  | nil => simp [lookupAssoc] at h
  | cons kv rest ih =>
    obtain ⟨k, v⟩ := kv
    by_cases hk : k = q
    · subst hk
      have hv : v = p := by simpa [lookupAssoc] using h
      subst hv
      refine ⟨(k, v + n) :: rest, by simp [bumpAssoc], by simp [lookupAssoc], ?_, ?_⟩
      · intro q' hq'
        simp [lookupAssoc, Ne.symm hq']
      · intro kv hkv
        rcases List.mem_cons.mp hkv with h' | h'
        · exact Or.inr h'
        · exact Or.inl (List.mem_cons_of_mem _ h')
    · have h' : lookupAssoc rest q = some p := by simpa [lookupAssoc, hk] using h
      obtain ⟨l', hb, hl, ho, hm⟩ := ih h'
      refine ⟨(k, v) :: l', by simp [bumpAssoc, hk, hb], by simp [lookupAssoc, hk, hl], ?_, ?_⟩
      · intro q' hq'
        by_cases hkq : k = q'
        · simp [lookupAssoc, hkq]
        · simp [lookupAssoc, hkq, ho q' hq']
      · intro kv hkv
        rcases List.mem_cons.mp hkv with h'' | h''
        · exact Or.inl (h'' ▸ List.mem_cons_self _ _)
        · rcases hm kv h'' with h3 | h3
          · exact Or.inl (List.mem_cons_of_mem _ h3)
          · exact Or.inr h3

/-! Structural facts about one growth pass. -/

theorem add_results_some {s : SearchSession} {new : List ResultItem} {q : String}
    {n now : Nat} {s1 : SearchSession} (h : s.add_results new q n now = some s1) :
    s1.results = s.results ++ new
    ∧ s1.queries = s.queries
    ∧ s1.is_exhausted = s.is_exhausted
    ∧ s1.last_returned_offset = s.last_returned_offset
    ∧ s1.session_id = s.session_id
    ∧ s1.original_prompt = s.original_prompt
    ∧ bumpAssoc s.query_positions q n = some s1.query_positions := by
  obtain ⟨qp, hb, hs⟩ := Option.map_eq_some'.mp h
  subst hs
  exact ⟨rfl, rfl, rfl, rfl, rfl, rfl, hb⟩

theorem fetchLoop_spec (env : Source) (now : Nat) (qs : List String) :
    ∀ (needed : Int) (s : SearchSession),
      (∃ t, (fetchLoop env now qs needed s).session.results = s.results ++ t)
      ∧ (fetchLoop env now qs needed s).session.queries = s.queries
      ∧ (fetchLoop env now qs needed s).session.is_exhausted = s.is_exhausted
      ∧ (fetchLoop env now qs needed s).session.last_returned_offset = s.last_returned_offset
      ∧ ((fetchLoop env now qs needed s).err = none
          ∨ (fetchLoop env now qs needed s).err = some .keyError) := by
  induction qs with
  | nil =>
    intro needed s
    exact ⟨⟨[], (List.append_nil _).symm⟩, rfl, rfl, rfl, Or.inl rfl⟩
  | cons query rest ih =>
    intro needed s
    simp only [fetchLoop]
    split
    · exact ⟨⟨[], (List.append_nil _).symm⟩, rfl, rfl, rfl, Or.inl rfl⟩
    · split
      · exact ⟨⟨[], (List.append_nil _).symm⟩, rfl, rfl, rfl, Or.inr rfl⟩
      · rename_i p hp
        split
        · exact ih needed s
        · split
          · exact ih needed s
          · rename_i hne
            split
            · exact ⟨⟨[], (List.append_nil _).symm⟩, rfl, rfl, rfl, Or.inr rfl⟩
            · rename_i s1 hadd
              obtain ⟨hres, hq1, he1, hl1, _, _, _⟩ := add_results_some hadd
              obtain ⟨⟨t, ht⟩, hq, he, hl, herr⟩ :=
                ih (needed - ((filteredBatch s (callGoogleSearchApi env query (p + 1)
                      (min 10 needed).toNat)).length : Int)) s1
              refine ⟨⟨filteredBatch s (callGoogleSearchApi env query (p + 1)
                        (min 10 needed).toNat) ++ t, ?_⟩, ?_, ?_, ?_, ?_⟩
              · exact ht.trans (by rw [hres, List.append_assoc])
              · exact hq.trans hq1
              · exact he.trans he1
              · exact hl.trans hl1
              · exact herr

theorem fetchLoop_posCapped {env : Source} (hcap : SourceCapped env) (now : Nat)
    (qs : List String) :
    ∀ (needed : Int) (s : SearchSession),
      (∀ kv ∈ s.query_positions, kv.2 ≤ 100) →
      ∀ kv ∈ (fetchLoop env now qs needed s).session.query_positions, kv.2 ≤ 100 := by
  induction qs with
  | nil => intro needed s hs; exact hs
  | cons query rest ih =>
    intro needed s hs
    simp only [fetchLoop]
    split
    · exact hs
    · split
      · exact hs
      · rename_i p hp
        split
        · exact ih needed s hs
        · rename_i hplt
          split
          · exact ih needed s hs
          · split
            · exact hs
            · rename_i s1 hadd
              obtain ⟨_, _, _, _, _, _, hbump⟩ := add_results_some hadd
              have hlen : (callGoogleSearchApi env query (p + 1)
                  (min 10 needed).toNat).length ≤ 101 - (p + 1) := hcap _ _ _
              obtain ⟨l', hb', _, _, hmem⟩ := bumpAssoc_of_lookup
                (callGoogleSearchApi env query (p + 1) (min 10 needed).toNat).length hp
              have hl'eq : l' = s1.query_positions := by
                rw [hb'] at hbump; exact Option.some.inj hbump
              apply ih
              intro kv hkv
              rw [← hl'eq] at hkv
              rcases hmem kv hkv with h | h
              · exact hs kv h
              · rw [h]
                omega

theorem fetchLoop_capSkip (env : Source) (now : Nat) (qs : List String) :
    ∀ (needed : Int) (s : SearchSession) (q0 : String) (p0 : Nat),
      lookupAssoc s.query_positions q0 = some p0 → 100 ≤ p0 →
      (∀ c ∈ (fetchLoop env now qs needed s).calls, c.1 ≠ q0)
      ∧ lookupAssoc (fetchLoop env now qs needed s).session.query_positions q0 = some p0 := by
  induction qs with
  | nil =>
    intro needed s q0 p0 h0 _
    exact ⟨fun c hc => absurd hc (List.not_mem_nil c), h0⟩
  | cons query rest ih =>
    intro needed s q0 p0 h0 hp0
    simp only [fetchLoop]
    split
    · exact ⟨fun c hc => absurd hc (List.not_mem_nil c), h0⟩
    · split
      · exact ⟨fun c hc => absurd hc (List.not_mem_nil c), h0⟩
      · rename_i p hp
        split
        · exact ih needed s q0 p0 h0 hp0
        · rename_i hplt
          have hqq : query ≠ q0 := by
            intro he
            rw [he, h0] at hp
            exact hplt (Option.some.inj hp ▸ hp0)
          split
          · obtain ⟨hcalls, hlook⟩ := ih needed s q0 p0 h0 hp0
            refine ⟨?_, hlook⟩
            intro c hc
            rcases List.mem_cons.mp hc with h | h
            · rw [h]; exact hqq
            · exact hcalls c h
          · split
            · refine ⟨?_, h0⟩
              intro c hc
              rcases List.mem_cons.mp hc with h | h
              · rw [h]; exact hqq
              · exact absurd h (List.not_mem_nil c)
            · rename_i s1 hadd
              obtain ⟨_, _, _, _, _, _, hbump⟩ := add_results_some hadd
              obtain ⟨l', hb', _, hother, _⟩ := bumpAssoc_of_lookup
                (callGoogleSearchApi env query (p + 1) (min 10 needed).toNat).length hp
              have hl'eq : l' = s1.query_positions := by
                rw [hb'] at hbump; exact Option.some.inj hbump
              have h0' : lookupAssoc s1.query_positions q0 = some p0 := by
                rw [← hl'eq, hother q0 (Ne.symm hqq)]; exact h0
              obtain ⟨hcalls, hlook⟩ :=
                ih (needed - ((filteredBatch s (callGoogleSearchApi env query (p + 1)
                      (min 10 needed).toNat)).length : Int)) s1 q0 p0 h0' hp0
              refine ⟨?_, hlook⟩
              intro c hc
              rcases List.mem_cons.mp hc with h | h
              · rw [h]; exact hqq
              · exact hcalls c h

theorem fetchLoop_nodup {env : Source} (hB : BatchNodup env) (now : Nat) (qs : List String) :
    ∀ (needed : Int) (s : SearchSession),
      (s.results.map (fun r => r.link)).Nodup →
      ((fetchLoop env now qs needed s).session.results.map (fun r => r.link)).Nodup := by
  induction qs with
  | nil => intro needed s hs; exact hs
  | cons query rest ih =>
    intro needed s hs
    simp only [fetchLoop]
    split
    · exact hs
    · split
      · exact hs
      · rename_i p hp
        split
        · exact ih needed s hs
        · split
          · exact ih needed s hs
          · split
            · exact hs
            · rename_i s1 hadd
              obtain ⟨hres, _, _, _, _, _, _⟩ := add_results_some hadd
              apply ih
              rw [hres, List.map_append]
              have hsubl : (filteredBatch s (callGoogleSearchApi env query (p + 1)
                  (min 10 needed).toNat)).Sublist
                  (callGoogleSearchApi env query (p + 1) (min 10 needed).toNat) :=
                List.filter_sublist _
              have hnF : ((filteredBatch s (callGoogleSearchApi env query (p + 1)
                  (min 10 needed).toNat)).map (fun r => r.link)).Nodup :=
                (hB query (p + 1) _).sublist (hsubl.map _)
              refine hs.append hnF ?_
              intro a ha hb
              obtain ⟨r, hr, hra⟩ := List.mem_map.mp hb
              have hrf := List.mem_filter.mp hr
              have hb2 : ¬ (r.link ∈ s.results.map (fun r => r.link)) := by
                simpa using hrf.2
              exact hb2 (hra ▸ ha)

theorem fetchLoop_emptySource {env : Source} (hE : EmptySource env) (now : Nat)
    (qs : List String) :
    ∀ (needed : Int) (s : SearchSession),
      (∀ q ∈ qs, (lookupAssoc s.query_positions q).isSome = true) →
      (fetchLoop env now qs needed s).session = s ∧ (fetchLoop env now qs needed s).err = none := by
  induction qs with
  | nil => intro needed s _; exact ⟨rfl, rfl⟩
  | cons query rest ih =>
    intro needed s hT
    simp only [fetchLoop]
    split
    · exact ⟨rfl, rfl⟩
    · split
      · rename_i hnone
        have := hT query (List.mem_cons_self _ _)
        rw [hnone] at this
        simp at this
      · split
        · exact ih needed s (fun q hq => hT q (List.mem_cons_of_mem _ hq))
        · split
          · exact ih needed s (fun q hq => hT q (List.mem_cons_of_mem _ hq))
          · rename_i p hp hplt hne
            exact absurd (by rw [show callGoogleSearchApi env query (p + 1)
              (min 10 needed).toNat = [] from hE _ _ _]; rfl) hne

theorem fetch_noop (env : Source) (now : Nat) (s : SearchSession) (target : Nat)
    (h : target ≤ s.results.length ∨ s.is_exhausted = true) :
    fetch_more_results env now s target = ⟨s, [], none⟩ := by
  rcases h with h | h
  · simp [fetch_more_results, h]
  · simp [fetch_more_results, h]

theorem fetch_spec (env : Source) (now : Nat) (s : SearchSession) (target : Nat) :
    (∃ t, (fetch_more_results env now s target).session.results = s.results ++ t)
    ∧ (fetch_more_results env now s target).session.queries = s.queries
    ∧ (fetch_more_results env now s target).session.last_returned_offset = s.last_returned_offset
    ∧ ((fetch_more_results env now s target).err = none
        ∨ (fetch_more_results env now s target).err = some .keyError) := by
  simp only [fetch_more_results]
  split
  · exact ⟨⟨[], (List.append_nil _).symm⟩, rfl, rfl, Or.inl rfl⟩
  · obtain ⟨⟨t, ht⟩, hq, _, hl, herr⟩ :=
      fetchLoop_spec env now s.queries ((target : Int) - s.results.length) s
    split
    · exact ⟨⟨t, ht⟩, hq, hl, herr⟩
    · split
      · exact ⟨⟨t, ht⟩, hq, hl, Or.inl rfl⟩
      · exact ⟨⟨t, ht⟩, hq, hl, herr⟩

theorem fetch_posCapped {env : Source} (hcap : SourceCapped env) (now : Nat)
    (s : SearchSession) (target : Nat) (hs : PosCapped s) :
    PosCapped (fetch_more_results env now s target).session := by
  simp only [fetch_more_results]
  split
  · exact hs
  · have h2 := fetchLoop_posCapped hcap now s.queries ((target : Int) - s.results.length) s hs
    split
    · exact h2
    · split
      · exact h2
      · exact h2

theorem fetch_capSkip (env : Source) (now : Nat) (s : SearchSession) (target : Nat)
    (q0 : String) (p0 : Nat) (h0 : lookupAssoc s.query_positions q0 = some p0)
    (hp0 : 100 ≤ p0) :
    (∀ c ∈ (fetch_more_results env now s target).calls, c.1 ≠ q0)
    ∧ lookupAssoc (fetch_more_results env now s target).session.query_positions q0 = some p0 := by
  simp only [fetch_more_results]
  split
  · exact ⟨fun c hc => absurd hc (List.not_mem_nil c), h0⟩
  · obtain ⟨hcalls, hlook⟩ :=
      fetchLoop_capSkip env now s.queries ((target : Int) - s.results.length) s q0 p0 h0 hp0
    split
    · exact ⟨hcalls, hlook⟩
    · split
      · exact ⟨hcalls, hlook⟩
      · exact ⟨hcalls, hlook⟩

theorem fetch_nodup {env : Source} (hB : BatchNodup env) (now : Nat)
    (s : SearchSession) (target : Nat)
    (hs : (s.results.map (fun r => r.link)).Nodup) :
    ((fetch_more_results env now s target).session.results.map (fun r => r.link)).Nodup := by
  simp only [fetch_more_results]
  split
  · exact hs
  · have h2 := fetchLoop_nodup hB now s.queries ((target : Int) - s.results.length) s hs
    split
    · exact h2
    · split
      · exact h2
      · exact h2

theorem fetch_empty_run {env : Source} (hE : EmptySource env) (now : Nat) (s : SearchSession)
    (target : Nat) (hT : QueriesTracked s) (hlt : s.results.length < target)
    (hex : s.is_exhausted = false) :
    (fetch_more_results env now s target).session = { s with is_exhausted := true }
    ∧ (fetch_more_results env now s target).err = none := by
  obtain ⟨hsess, herr⟩ :=
    fetchLoop_emptySource hE now s.queries ((target : Int) - s.results.length) s hT
  simp only [fetch_more_results]
  split
  · rename_i hcond
    exfalso
    rw [hex, Bool.or_false, decide_eq_true_eq] at hcond
    omega
  · split
    · rename_i e herr2
      rw [herr2] at herr
      exact absurd herr (by simp)
    · split
      · refine ⟨?_, rfl⟩
        rw [hsess]
      · rename_i hlenne
        exfalso
        exact hlenne (by rw [hsess])

theorem fetch_sets_exhausted (env : Source) (now : Nat) (s : SearchSession) (target : Nat)
    (hlt : s.results.length < target) (hex : s.is_exhausted = false) :
    (fetch_more_results env now s target).err = none →
    (fetch_more_results env now s target).session.results.length = s.results.length →
    (fetch_more_results env now s target).session.is_exhausted = true := by
  simp only [fetch_more_results]
  split
  · rename_i hcond
    intro _ _
    exfalso
    rw [hex, Bool.or_false, decide_eq_true_eq] at hcond
    omega
  · split
    · rename_i e herr2
      intro habs _
      rw [herr2] at habs
      exact absurd habs (by simp)
    · split
      · intro _ _
        rfl
      · rename_i hlenne
        intro _ hlen
        exact absurd hlen hlenne

/-! Facts about the shared serving tail of the public operations. -/

theorem grownSession_spec (env : Source) (now : Nat) (s : SearchSession) (rt : Nat) :
    (∃ t, (grownSession env now s rt).1.results = s.results ++ t)
    ∧ (grownSession env now s rt).1.queries = s.queries
    ∧ (grownSession env now s rt).1.last_returned_offset = s.last_returned_offset
    ∧ ((grownSession env now s rt).2 = none ∨ (grownSession env now s rt).2 = some .keyError) := by
  unfold grownSession
  split
  · obtain ⟨⟨t, ht⟩, hq, hl, herr⟩ := fetch_spec env now s (rt + 10)
    exact ⟨⟨t, ht⟩, hq, hl, herr⟩
  · exact ⟨⟨[], (List.append_nil _).symm⟩, rfl, rfl, Or.inl rfl⟩

theorem grownSession_nodup {env : Source} (hB : BatchNodup env) (now : Nat)
    (s : SearchSession) (rt : Nat) (hs : (s.results.map (fun r => r.link)).Nodup) :
    ((grownSession env now s rt).1.results.map (fun r => r.link)).Nodup := by
  unfold grownSession
  split
  · exact fetch_nodup hB now s (rt + 10) hs
  · exact hs

theorem grownSession_noGrowth (env : Source) (now : Nat) (s : SearchSession) (rt : Nat)
    (h : s.needs_more_results rt = false) :
    grownSession env now s rt = (s, none) := by
  simp [grownSession, h]

theorem grownSession_stabilizes (env : Source) (now : Nat) (s : SearchSession) (rt : Nat)
    (herr : (grownSession env now s rt).2 = none)
    (hres : (grownSession env now s rt).1.results = s.results) :
    (grownSession env now s rt).1.needs_more_results rt = false := by
  unfold grownSession at herr hres ⊢
  split at herr
  · rename_i hneeds
    rw [if_pos hneeds] at hres ⊢
    have hres' : (fetch_more_results env now s (rt + 10)).session.results = s.results := hres
    have herr' : (fetch_more_results env now s (rt + 10)).err = none := herr
    show (fetch_more_results env now s (rt + 10)).session.needs_more_results rt = false
    have hcond : s.results.length < rt ∧ s.is_exhausted = false := by
      simpa [SearchSession.needs_more_results, Bool.and_eq_true, Bool.not_eq_true']
        using hneeds
    have hx := fetch_sets_exhausted env now s (rt + 10) (by omega) hcond.2 herr'
      (by rw [hres'])
    simp [SearchSession.needs_more_results, hx]
  · rename_i hneeds
    rw [if_neg hneeds]
    exact eq_false_of_ne_true hneeds


theorem servePage_ok {env : Source} {now : Nat} {eng : SearchEngine} {sid : String}
    {s : SearchSession} {offset n : Nat} {out : PageOut} {eng' : SearchEngine}
    (h : servePage env now eng sid s offset n = (.ok out, eng')) :
    (grownSession env now s (offset + n)).2 = none
    ∧ out.results = (((grownSession env now s (offset + n)).1.results).drop offset).take n
    ∧ eng' = eng.put sid { (grownSession env now s (offset + n)).1 with
        last_accessed := now
        last_returned_offset := offset + out.results.length } := by
  unfold servePage at h
  split at h
  · simp at h
  · rename_i sG hG
    rw [Prod.mk.injEq] at h
    obtain ⟨h1, h2⟩ := h
    obtain rfl := Except.ok.inj h1
    refine ⟨by rw [hG], ?_, ?_⟩
    · rw [hG]
      rfl
    · rw [hG, ← h2]
      rfl

theorem servePage_noGrowth (env : Source) (now : Nat) (eng : SearchEngine) (sid : String)
    (s : SearchSession) (offset n : Nat)
    (h : s.needs_more_results (offset + n) = false) :
    (∃ p, (servePage env now eng sid s offset n).1 = .ok p)
    ∧ (servePage env now eng sid s offset n).2 =
        eng.put sid { s with last_accessed := now
                             last_returned_offset := offset + ((s.results.drop offset).take n).length } := by
  unfold servePage
  rw [grownSession_noGrowth env now s (offset + n) h]
  exact ⟨⟨_, rfl⟩, rfl⟩

theorem servePage_no_valueError (env : Source) (now : Nat) (eng : SearchEngine) (sid : String)
    (s : SearchSession) (offset n : Nat) (msg : String) :
    (servePage env now eng sid s offset n).1 ≠ .error (.valueError msg) := by
  unfold servePage
  rcases hG : grownSession env now s (offset + n) with ⟨sG, e⟩
  cases e with
  | none => simp
  | some err =>
    have h4 := (grownSession_spec env now s (offset + n)).2.2.2
    rw [hG] at h4
    rcases h4 with h4 | h4
    · exact absurd h4 (by simp)
    · obtain rfl : err = .keyError := Option.some.inj h4
      simp

theorem servePage_lro (env : Source) (now : Nat) (eng : SearchEngine) (sid : String)
    (s : SearchSession) (offset n : Nat) (out : PageOut) (eng' : SearchEngine)
    (h : servePage env now eng sid s offset n = (.ok out, eng')) :
    ∀ s', lookupAssoc eng'.sessions sid = some s' →
      s'.last_returned_offset = offset + out.results.length := by
  intro s' hs'
  obtain ⟨_, _, h3⟩ := servePage_ok h
  rw [h3] at hs'
  simp only [SearchEngine.put] at hs'
  rw [lookupAssoc_insertAssoc] at hs'
  obtain rfl := Option.some.inj hs'
  rfl

theorem servePage_inv {env : Source} (hB : BatchNodup env) (now : Nat) (eng : SearchEngine)
    (sid : String) (sB : SearchSession) (o n : Nat) (acc : List ResultItem)
    (out : PageOut) (eng' : SearchEngine)
    (hacc : acc = sB.results.take sB.last_returned_offset)
    (ho : o = sB.last_returned_offset)
    (hole : sB.last_returned_offset ≤ sB.results.length)
    (hnd : (sB.results.map (fun r => r.link)).Nodup)
    (h : servePage env now eng sid sB o n = (.ok out, eng')) :
    SessionInv sid eng' (acc ++ out.results) := by
  obtain ⟨herr, hres, heng⟩ := servePage_ok h
  obtain ⟨⟨t, ht⟩, _, hlro, _⟩ := grownSession_spec env now sB (o + n)
  have hndG : (((grownSession env now sB (o + n)).1.results).map (fun r => r.link)).Nodup :=
    grownSession_nodup hB now sB (o + n) hnd
  set sG := (grownSession env now sB (o + n)).1 with hsG
  have hlen : sB.results.length ≤ sG.results.length := by
    rw [ht]; simp
  have hoB : o ≤ sB.results.length := ho ▸ hole
  have hoG : o ≤ sG.results.length := le_trans hoB hlen
  have haccG : acc = sG.results.take o := by
    rw [hacc, ← ho, ht, List.take_append_of_le_length (ho ▸ hoB)]
  have hslice : out.results = (sG.results.drop o).take n := hres
  have hL : out.results.length = min n (sG.results.length - o) := by
    rw [hslice, List.length_take, List.length_drop]
  have hcombine : acc ++ out.results = sG.results.take (o + out.results.length) := by
    rw [List.take_add, haccG, hslice]
    congr 1
    rw [List.take_eq_take]
    simp [List.length_drop]
  unfold SessionInv
  rw [heng]
  simp only [SearchEngine.put]
  rw [lookupAssoc_insertAssoc]
  refine ⟨?_, ?_, ?_⟩
  · exact hcombine
  · simp
    omega
  · exact hndG

theorem swo_existing (env : Source) (plan div : String → List String) (now today : Nat)
    (eng : SearchEngine) (prompt user_id : String) (offset n : Nat) (s : SearchSession)
    (hs : lookupAssoc eng.sessions (generate_session_id user_id prompt today) = some s)
    (hne : ¬ s.results.length = 0) :
    search_with_offset env plan div now today eng prompt user_id offset n =
      servePage env now eng (generate_session_id user_id prompt today) s offset n := by
  simp only [search_with_offset, hs]
  rw [if_neg hne]

theorem swo_existing_empty (env : Source) (plan div : String → List String) (now today : Nat)
    (eng : SearchEngine) (prompt user_id : String) (offset n : Nat) (s : SearchSession)
    (hs : lookupAssoc eng.sessions (generate_session_id user_id prompt today) = some s)
    (hz : s.results.length = 0) :
    search_with_offset env plan div now today eng prompt user_id offset n =
      (.error .nameError, eng.put (generate_session_id user_id prompt today) s) := by
  simp only [search_with_offset, hs]
  rw [if_pos hz]

theorem gmr_none (env : Source) (now : Nat) (eng : SearchEngine) (sid : String) (n : Nat)
    (h : lookupAssoc eng.sessions sid = none) :
    get_more_results env now eng sid n =
      (.error (.valueError "Session not found or expired"), eng) := by
  simp only [get_more_results, h]

theorem gmr_some (env : Source) (now : Nat) (eng : SearchEngine) (sid : String) (n : Nat)
    (s : SearchSession) (h : lookupAssoc eng.sessions sid = some s) :
    get_more_results env now eng sid n =
      servePage env now eng sid s s.last_returned_offset n := by
  simp only [get_more_results, h]

theorem swo_inv_step {env : Source} (hB : BatchNodup env)
    (plan div : String → List String) (now today : Nat) (prompt user_id : String)
    (o n : Nat) (eng : SearchEngine) (acc : List ResultItem)
    (out : PageOut) (eng' : SearchEngine)
    (hInv : SessionInv (generate_session_id user_id prompt today) eng acc)
    (hContig : (match lookupAssoc eng.sessions (generate_session_id user_id prompt today) with
                | some s => decide (o = s.last_returned_offset)
                | none => decide (o = 0)) = true)
    (h : search_with_offset env plan div now today eng prompt user_id o n = (.ok out, eng')) :
    SessionInv (generate_session_id user_id prompt today) eng' (acc ++ out.results) := by
  cases hLook : lookupAssoc eng.sessions (generate_session_id user_id prompt today) with
  | none =>
    rw [hLook] at hContig
    have ho : o = 0 := of_decide_eq_true hContig
    have hacc : acc = [] := by
      unfold SessionInv at hInv
      rw [hLook] at hInv
      exact hInv
    simp only [search_with_offset, hLook] at h
    -- facts about the session after the creation growth
    have base := fetch_spec env now (SearchSession.new (generate_session_id user_id prompt today)
      prompt (plan prompt) now) (o + n + 10)
    obtain ⟨⟨t0, ht0⟩, _, hl0, _⟩ := base
    have hnd0 : (((fetch_more_results env now (SearchSession.new
        (generate_session_id user_id prompt today) prompt (plan prompt) now)
        (o + n + 10)).session.results.map (fun r => r.link)).Nodup) :=
      fetch_nodup hB now _ _ (by simp [SearchSession.new])
    split at h
    · simp at h
    · split at h
      · -- fallback branch: session empty after first growth, second growth on replaced queries
        rename_i herr0 hz
        split at h
        · simp at h
        · rename_i herr2
          set s0 := SearchSession.new (generate_session_id user_id prompt today) prompt
            (plan prompt) now with hs0
          set sR : SearchSession := { (fetch_more_results env now s0 (o + n + 10)).session
            with queries := div prompt } with hsR
          have base2 := fetch_spec env now sR (o + n + 10)
          obtain ⟨⟨t2, ht2⟩, _, hl2, _⟩ := base2
          refine servePage_inv hB now eng _ _ o n acc out eng' ?_ ?_ ?_ ?_ h
          · rw [hl2]
            show acc = _
            rw [hacc]
            have : sR.last_returned_offset = 0 := by
              show (fetch_more_results env now s0 (o + n + 10)).session.last_returned_offset = 0
              rw [hl0]
              rfl
            rw [this]
            rfl
          · rw [hl2]
            show o = sR.last_returned_offset
            have : sR.last_returned_offset = 0 := by
              show (fetch_more_results env now s0 (o + n + 10)).session.last_returned_offset = 0
              rw [hl0]
              rfl
            rw [this, ho]
          · have : sR.last_returned_offset = 0 := by
              show (fetch_more_results env now s0 (o + n + 10)).session.last_returned_offset = 0
              rw [hl0]
              rfl
            rw [hl2, this]
            exact Nat.zero_le _
          · refine fetch_nodup hB now sR (o + n + 10) ?_
            show (((fetch_more_results env now s0 (o + n + 10)).session.results.map
              (fun r => r.link)).Nodup)
            exact hnd0
      · -- non-empty after first growth: serve directly
        rename_i herr0 hz
        refine servePage_inv hB now eng _ _ o n acc out eng' ?_ ?_ ?_ ?_ h
        · rw [hl0, hacc]
          rfl
        · rw [hl0, ho]
          rfl
        · rw [hl0]
          exact Nat.zero_le _
        · exact hnd0
  | some s =>
    rw [hLook] at hContig
    have ho : o = s.last_returned_offset := of_decide_eq_true hContig
    have hInv' : acc = s.results.take s.last_returned_offset
        ∧ s.last_returned_offset ≤ s.results.length
        ∧ (s.results.map (fun r => r.link)).Nodup := by
      unfold SessionInv at hInv
      rw [hLook] at hInv
      exact hInv
    by_cases hz : s.results.length = 0
    · rw [swo_existing_empty env plan div now today eng prompt user_id o n s hLook hz] at h
      simp at h
    · rw [swo_existing env plan div now today eng prompt user_id o n s hLook hz] at h
      exact servePage_inv hB now eng _ s o n acc out eng' hInv'.1 ho hInv'.2.1 hInv'.2.2 h

theorem gmr_inv_step {env : Source} (hB : BatchNodup env) (now : Nat) (sid : String)
    (eng : SearchEngine) (acc : List ResultItem) (n : Nat)
    (out : PageOut) (eng' : SearchEngine)
    (hInv : SessionInv sid eng acc)
    (h : get_more_results env now eng sid n = (.ok out, eng')) :
    SessionInv sid eng' (acc ++ out.results) := by
  cases hLook : lookupAssoc eng.sessions sid with
  | none =>
    rw [gmr_none env now eng sid n hLook] at h
    simp at h
  | some s =>
    rw [gmr_some env now eng sid n s hLook] at h
    have hInv' : acc = s.results.take s.last_returned_offset
        ∧ s.last_returned_offset ≤ s.results.length
        ∧ (s.results.map (fun r => r.link)).Nodup := by
      unfold SessionInv at hInv
      rw [hLook] at hInv
      exact hInv
    exact servePage_inv hB now eng sid s s.last_returned_offset n acc out eng'
      hInv'.1 rfl hInv'.2.1 hInv'.2.2 h

theorem runCalls_inv {env : Source} (hB : BatchNodup env)
    (plan div : String → List String) (now today : Nat) (prompt user : String) :
    ∀ (calls : List ApiCall) (eng : SearchEngine) (acc : List ResultItem)
      (slices : List (List ResultItem)) (engF : SearchEngine),
      SessionInv (generate_session_id user prompt today) eng acc →
      runCalls env plan div now today prompt user calls eng = some (slices, engF, true) →
      SessionInv (generate_session_id user prompt today) engF (acc ++ slices.flatten) := by
  intro calls
  induction calls with
  | nil =>
    intro eng acc slices engF hInv hrun
    simp only [runCalls, Option.some.injEq, Prod.mk.injEq] at hrun
    obtain ⟨h1, h2, _⟩ := hrun
    subst h1
    subst h2
    simpa using hInv
  | cons c cs ih =>
    intro eng acc slices engF hInv hrun
    simp only [runCalls] at hrun
    split at hrun
    · simp at hrun
    · rename_i step out eng1 hstep
      split at hrun
      · simp at hrun
      · rename_i sl engF' b hrec
        simp only [Option.some.injEq, Prod.mk.injEq] at hrun
        obtain ⟨h1, h2, h3⟩ := hrun
        subst h1
        subst h2
        rw [Bool.and_eq_true] at h3
        obtain ⟨hc, hb⟩ := h3
        have hstepInv : SessionInv (generate_session_id user prompt today) eng1
            (acc ++ out.results) := by
          cases c with
          | swo o m =>
            exact swo_inv_step hB plan div now today prompt user o m eng acc out eng1
              hInv hc hstep
          | gmr m =>
            exact gmr_inv_step hB now (generate_session_id user prompt today) eng acc m
              out eng1 hInv hstep
        have := ih eng1 (acc ++ out.results) sl engF' hstepInv (hb ▸ hrec)
        simpa [List.append_assoc] using this

theorem collectStep_capped (gen : Nat → Nat) (fetchB : Nat → Nat → List ResultItem)
    (num cap mcs : Nat) (st : CollectorState)
    (hmcs : 1 ≤ mcs) (hcap : cap ≤ st.total_consumed) :
    (∃ stA, collectStep gen fetchB num cap mcs st = .inl (.target_met, stA)
        ∧ stA.engine_calls = st.engine_calls ∧ stA.total_consumed = st.total_consumed)
    ∨ (∃ stA, collectStep gen fetchB num cap mcs st = .inl (.cap_reached, stA)
        ∧ stA.engine_calls = st.engine_calls ∧ stA.total_consumed = st.total_consumed)
    ∨ (∃ stA L, collectStep gen fetchB num cap mcs st = .inr stA
        ∧ stA.engine_calls = st.engine_calls
        ∧ 1 ≤ L ∧ L ≤ st.results.length - st.result_index
        ∧ stA.result_index = st.result_index + L
        ∧ stA.total_consumed = st.total_consumed + L
        ∧ stA.results = st.results) := by
  simp only [collectStep]
  split
  · exact Or.inl ⟨_, rfl, rfl, rfl⟩
  · split
    · exact Or.inr (Or.inl ⟨_, rfl, rfl, rfl⟩)
    · rename_i hd hidx
      refine Or.inr (Or.inr ⟨_,
        ((st.results.drop st.result_index).take
          (min mcs (max 1 ((((num : Nat) : Int) - ((gen st.db_reads : Nat) : Int)) * 2).toNat))).length,
        rfl, rfl, ?_, ?_, rfl, rfl, rfl⟩)
      · rw [List.length_take, List.length_drop]
        omega
      · rw [List.length_take, List.length_drop]
        omega

theorem collectLoop_capped (gen : Nat → Nat) (fetchB : Nat → Nat → List ResultItem)
    (num cap mcs : Nat) :
    ∀ (fuel : Nat) (st : CollectorState),
      1 ≤ mcs → cap ≤ st.total_consumed →
      st.results.length - st.result_index < fuel →
      ((collectLoop gen fetchB num cap mcs fuel st).1 = .target_met
        ∨ (collectLoop gen fetchB num cap mcs fuel st).1 = .cap_reached)
      ∧ (collectLoop gen fetchB num cap mcs fuel st).2.engine_calls = st.engine_calls
      ∧ (collectLoop gen fetchB num cap mcs fuel st).2.total_consumed
          ≤ st.total_consumed + (st.results.length - st.result_index) := by
  intro fuel
  induction fuel with
  | zero =>
    intro st _ _ h3
    exact absurd h3 (Nat.not_lt_zero _)
  | succ fuel ih =>
    intro st h1 h2 h3
    rcases collectStep_capped gen fetchB num cap mcs st h1 h2 with
      ⟨stA, hstep, hE, hC⟩ | ⟨stA, hstep, hE, hC⟩ |
      ⟨stA, L, hstep, hE, hL1, hL2, hI, hC, hR⟩
    · have hrun : collectLoop gen fetchB num cap mcs (fuel + 1) st = (.target_met, stA) := by
        simp only [collectLoop, hstep]
      rw [hrun]
      refine ⟨Or.inl rfl, hE, ?_⟩
      rw [hC]
      exact Nat.le_add_right _ _
    · have hrun : collectLoop gen fetchB num cap mcs (fuel + 1) st = (.cap_reached, stA) := by
        simp only [collectLoop, hstep]
      rw [hrun]
      refine ⟨Or.inr rfl, hE, ?_⟩
      rw [hC]
      exact Nat.le_add_right _ _
    · have hrun : collectLoop gen fetchB num cap mcs (fuel + 1) st
          = collectLoop gen fetchB num cap mcs fuel stA := by
        simp only [collectLoop, hstep]
      rw [hrun]
      have hIH := ih stA h1 (by omega) (by rw [hR, hI]; omega)
      refine ⟨hIH.1, hIH.2.1.trans hE, ?_⟩
      have h5 := hIH.2.2
      rw [hC, hR, hI] at h5
      omega

/-! The claims. -/

/-- C1: the spec's fallback rule says that when the first growth attempt
leaves the session empty, the queries are replaced by the planner's
diversified set and one retried growth pass fetches from them, so a
replacement set with hits leaves the session non-empty. The code installs
the replacement queries but the failed first pass has already set
`is_exhausted`, which is never cleared, and the replacement queries never
receive cursor entries; the retried `fetch_more_results` therefore returns
immediately and the session stays empty even though the diversified query
`"qb"` has a hit. This theorem evaluates the code at that failing input. -/
theorem c1_diversify_retry_fetches_nothing :
    (search_with_offset envC1 planA divB 0 0 ⟨[]⟩ "p" "u" 0 3).1 =
      .ok { results := [], offset := 0, results_returned := 0,
            total_results_available := 0, has_more := false,
            next_offset := none, is_exhausted := true }
    ∧ ((lookupAssoc (search_with_offset envC1 planA divB 0 0 ⟨[]⟩ "p" "u" 0 3).2.sessions
         (generate_session_id "u" "p" 0)).map SearchSession.results) = some []
    ∧ ((lookupAssoc (search_with_offset envC1 planA divB 0 0 ⟨[]⟩ "p" "u" 0 3).2.sessions
         (generate_session_id "u" "p" 0)).map SearchSession.queries) = some ["qb"]
    ∧ ((lookupAssoc (search_with_offset envC1 planA divB 0 0 ⟨[]⟩ "p" "u" 0 3).2.sessions
         (generate_session_id "u" "p" 0)).map SearchSession.query_positions) = some [("qa", 0)]
    ∧ ((lookupAssoc (search_with_offset envC1 planA divB 0 0 ⟨[]⟩ "p" "u" 0 3).2.sessions
         (generate_session_id "u" "p" 0)).map SearchSession.is_exhausted) = some true
    ∧ envC1 "qb" 1 10 = [itB] :=
  ⟨rfl, rfl, rfl, rfl, rfl, rfl⟩

/-- C3 counterexample: with `target_count = 20`, `max_total_pull = 15`,
a zero-acceptance oracle and an unlimited source, the loop does terminate
as `CAP_REACHED` but only after consuming 20 candidates, not exactly 15:
the cap is checked only when the in-memory buffer is empty, and the first
continuation fetch of `min(10*2, max(10, 2*20)) = 20` candidates is fully
drained before the check fires again. -/
theorem c3_cap_overshoot_counterexample :
    (collectLoop gen0 fetchRep 20 15 10 6 (initCollector [])).1 = .cap_reached
    ∧ (collectLoop gen0 fetchRep 20 15 10 6 (initCollector [])).2.total_consumed = 20
    ∧ ¬ (collectLoop gen0 fetchRep 20 15 10 6 (initCollector [])).2.total_consumed = 15 :=
  ⟨rfl, rfl, by decide⟩

/-- C3 amended: in the scenario the loop terminates `CAP_REACHED` having
consumed 20 candidates (`max_total_pull` plus the still-buffered
candidates), and in general, once `total_consumed ≥ max_total_pull`, the
loop issues no further engine fetch and terminates (`TARGET_MET` or
`CAP_REACHED`) within a buffer-drain's worth of iterations, consuming at
most the already-buffered candidates beyond the cap. -/
theorem c3_cap_reached_amended :
    ((collectLoop gen0 fetchRep 20 15 10 6 (initCollector [])).1 = .cap_reached
      ∧ (collectLoop gen0 fetchRep 20 15 10 6 (initCollector [])).2.total_consumed = 20)
    ∧ ∀ (gen : Nat → Nat) (fetchB : Nat → Nat → List ResultItem)
        (num cap mcs fuel : Nat) (st : CollectorState),
        1 ≤ mcs → cap ≤ st.total_consumed →
        st.results.length - st.result_index < fuel →
        ((collectLoop gen fetchB num cap mcs fuel st).1 = .target_met
          ∨ (collectLoop gen fetchB num cap mcs fuel st).1 = .cap_reached)
        ∧ (collectLoop gen fetchB num cap mcs fuel st).2.engine_calls = st.engine_calls
        ∧ (collectLoop gen fetchB num cap mcs fuel st).2.total_consumed
            ≤ st.total_consumed + (st.results.length - st.result_index) := by
  refine ⟨⟨rfl, rfl⟩, ?_⟩
  intro gen fetchB num cap mcs fuel st h1 h2 h3
  exact collectLoop_capped gen fetchB num cap mcs fuel st h1 h2 h3

/-- Witness for the amended C3: a capped state with an empty buffer
terminates at once as `CAP_REACHED` without any engine call. -/
theorem c3_cap_reached_amended_witness :
    (1:Nat) ≤ 1 ∧ (0:Nat) ≤ (initCollector []).total_consumed
    ∧ (initCollector []).results.length - (initCollector []).result_index < 1
    ∧ ((collectLoop gen0 fetchRep 5 0 1 1 (initCollector [])).1 = .target_met
        ∨ (collectLoop gen0 fetchRep 5 0 1 1 (initCollector [])).1 = .cap_reached)
    ∧ (collectLoop gen0 fetchRep 5 0 1 1 (initCollector [])).2.engine_calls
        = (initCollector []).engine_calls := by
  have h := c3_cap_reached_amended.2 gen0 fetchRep 5 0 1 1 (initCollector [])
    (by decide) (by decide) (by decide)
  exact ⟨by decide, by decide, by decide, h.1, h.2.1⟩

/-- C8: with `target_count = 0` the very first deficit check terminates the
loop as `TARGET_MET`: the collector makes no engine continuation call and
submits nothing to the extraction pipeline, whatever the oracle,
the engine, the caps and the initial buffer are. -/
theorem c8_target_zero (gen : Nat → Nat) (fetchB : Nat → Nat → List ResultItem)
    (max_total_pull max_chunk_size : Nat) (initial : List ResultItem) (fuel : Nat) :
    (collectLoop gen fetchB 0 max_total_pull max_chunk_size (fuel + 1)
        (initCollector initial)).1 = .target_met
    ∧ (collectLoop gen fetchB 0 max_total_pull max_chunk_size (fuel + 1)
        (initCollector initial)).2.engine_calls = 0
    ∧ (collectLoop gen fetchB 0 max_total_pull max_chunk_size (fuel + 1)
        (initCollector initial)).2.submitted = [] := by
  have hrun : collectLoop gen fetchB 0 max_total_pull max_chunk_size (fuel + 1)
      (initCollector initial)
      = (.target_met, { initCollector initial with db_reads := 0 + 1 }) := by
    simp only [collectLoop, collectStep]
    have h0 : ((0:Nat):Int) - (gen (initCollector initial).db_reads : Int) ≤ 0 := by omega
    rw [if_pos h0]
    rfl
  rw [hrun]
  exact ⟨rfl, rfl, rfl⟩

/-- C9: a continuation request for a session id absent from the store
raises the NotFound-kind error (`ValueError`) and returns the engine
unchanged; for a stored session id the operation never raises that
error kind (its only other failure mode is the dict `KeyError`). -/
theorem c9_session_not_found (env : Source) (now : Nat) (eng : SearchEngine)
    (sid : String) (n : Nat) :
    (lookupAssoc eng.sessions sid = none →
      get_more_results env now eng sid n =
        (.error (.valueError "Session not found or expired"), eng))
    ∧ (∀ s, lookupAssoc eng.sessions sid = some s →
        ∀ msg, (get_more_results env now eng sid n).1 ≠ .error (.valueError msg)) := by
  constructor
  · intro h
    exact gmr_none env now eng sid n h
  · intro s h msg
    rw [gmr_some env now eng sid n s h]
    exact servePage_no_valueError env now eng sid s s.last_returned_offset n msg

/-- Witness for C9 at a concrete empty engine. -/
theorem c9_session_not_found_witness :
    lookupAssoc (SearchEngine.mk []).sessions "x" = none
    ∧ get_more_results envE 0 ⟨[]⟩ "x" 1 =
        (.error (.valueError "Session not found or expired"), ⟨[]⟩) :=
  ⟨rfl, (c9_session_not_found envE 0 ⟨[]⟩ "x" 1).1 rfl⟩

/-- C2: under the source's hard result window (a request at 1-based start
`s` returns at most `101 - s` items), every per-query cursor stays at or
below 100 along any sequence of growth passes from a fresh session; and a
query whose cursor has reached 100 is skipped: a growth pass issues no
request for it and leaves its cursor unchanged. -/
theorem c2_cursor_cap {env : Source} (hcap : SourceCapped env) :
    (∀ (now : Nat) (targets : List Nat) (sid pr : String) (qs : List String) (t0 : Nat)
        (s' : SearchSession),
        runGrowths env now targets (SearchSession.new sid pr qs t0) = some s' → PosCapped s')
    ∧ (∀ (now : Nat) (s : SearchSession) (target : Nat) (q : String) (p : Nat),
        lookupAssoc s.query_positions q = some p → 100 ≤ p →
          (∀ c ∈ (fetch_more_results env now s target).calls, c.1 ≠ q)
          ∧ lookupAssoc (fetch_more_results env now s target).session.query_positions q
              = some p) := by
  constructor
  · intro now targets
    suffices h : ∀ (ts : List Nat) (s : SearchSession), PosCapped s →
        ∀ s', runGrowths env now ts s = some s' → PosCapped s' by
      intro sid pr qs t0 s' hrun
      refine h targets _ ?_ s' hrun
      intro kv hkv
      obtain ⟨q, _, hq⟩ := List.mem_map.mp hkv
      rw [← hq]
      exact Nat.zero_le _
    intro ts
    induction ts with
    | nil =>
      intro s hs s' hrun
      simp only [runGrowths, Option.some.injEq] at hrun
      rw [← hrun]
      exact hs
    | cons t ts ih =>
      intro s hs s' hrun
      simp only [runGrowths] at hrun
      split at hrun
      · simp at hrun
      · exact ih _ (fetch_posCapped hcap now s t hs) s' hrun
  · intro now s target q p h0 hp0
    exact fetch_capSkip env now s target q p h0 hp0

/-- Witness for C2: the empty source satisfies the window contract, and a
one-pass-grown fresh session has all cursors at or below 100. -/
theorem c2_cursor_cap_witness :
    SourceCapped envE ∧ PosCapped c2wSession :=
  ⟨fun _ _ _ => Nat.zero_le _,
   (@c2_cursor_cap envE (fun _ _ _ => Nat.zero_le _)).1 0 [5] "s" "p" ["q"] 0 c2wSession rfl⟩

/-- C6: on a session whose every tracked query returns an empty batch, a
growth pass that actually runs (buffer below target, not yet exhausted)
adds nothing and sets `is_exhausted`; from then on any growth call on the
resulting session returns it unchanged at once and issues no source
request (empty call trace), whatever the environment. -/
theorem c6_exhaustion_convergence {env : Source} (hE : EmptySource env) (now : Nat)
    (s : SearchSession) (target : Nat) (hT : QueriesTracked s)
    (hex : s.is_exhausted = false) (hlt : s.results.length < target) :
    ((fetch_more_results env now s target).session.results = s.results
      ∧ (fetch_more_results env now s target).session.is_exhausted = true
      ∧ (fetch_more_results env now s target).err = none)
    ∧ ∀ (env' : Source) (now' target' : Nat),
        fetch_more_results env' now' (fetch_more_results env now s target).session target'
          = ⟨(fetch_more_results env now s target).session, [], none⟩ := by
  obtain ⟨hsess, herr⟩ := fetch_empty_run hE now s target hT hlt hex
  constructor
  · refine ⟨?_, ?_, herr⟩
    · rw [hsess]
    · rw [hsess]
  · intro env' now' target'
    apply fetch_noop
    right
    rw [hsess]

/-- Witness for C6 at a concrete fresh one-query session and the empty
source; the second conjunct block applies the exhausted-session no-op at a
different environment, time and target. -/
theorem c6_exhaustion_convergence_witness :
    EmptySource envE ∧ QueriesTracked sessC6 ∧ sessC6.is_exhausted = false
    ∧ sessC6.results.length < 1
    ∧ fetch_more_results envE 7 sessC6x 9 = ⟨sessC6x, [], none⟩ := by
  have h := @c6_exhaustion_convergence envE (fun _ _ _ => rfl) 0 sessC6 1
    (by unfold QueriesTracked; decide) rfl (by decide)
  exact ⟨fun _ _ _ => rfl, by unfold QueriesTracked; decide, rfl, by decide, h.2 envE 7 9⟩

/-- C4 counterexample: a session that has already served through offset 6
(`last_returned_offset = 6`) is asked, via the explicit-offset operation,
for `(offset = 0, count = 3)`; the call resets `last_returned_offset` to
`offset + returned = 3 < 6`, so the field is not monotone. -/
theorem c4_explicit_offset_decreases :
    sessC4.last_returned_offset = 6
    ∧ ((lookupAssoc (search_with_offset envE planA divB 0 0 engC4 "p" "u" 0 3).2.sessions
        (generate_session_id "u" "p" 0)).map SearchSession.last_returned_offset) = some 3
    ∧ (3:Nat) < 6 :=
  ⟨rfl, rfl, by decide⟩

/-- C4 amended: `last_returned_offset` never decreases across
`get_more_results` calls; `search_with_offset` sets it to
`offset + returned_count`, which is at least the previous value whenever
the explicit offset is at least the previous value (and can be smaller
otherwise, as the counterexample shows). -/
theorem c4_monotone_amended (env : Source) (plan div : String → List String)
    (now today : Nat) (eng : SearchEngine) (prompt user_id : String) :
    (∀ (n : Nat) (s : SearchSession) (out : PageOut) (eng' : SearchEngine)
        (s' : SearchSession),
      lookupAssoc eng.sessions (generate_session_id user_id prompt today) = some s →
      get_more_results env now eng (generate_session_id user_id prompt today) n
        = (.ok out, eng') →
      lookupAssoc eng'.sessions (generate_session_id user_id prompt today) = some s' →
      s.last_returned_offset ≤ s'.last_returned_offset)
    ∧ (∀ (offset n : Nat) (s : SearchSession) (out : PageOut) (eng' : SearchEngine)
        (s' : SearchSession),
      lookupAssoc eng.sessions (generate_session_id user_id prompt today) = some s →
      s.last_returned_offset ≤ offset →
      search_with_offset env plan div now today eng prompt user_id offset n
        = (.ok out, eng') →
      lookupAssoc eng'.sessions (generate_session_id user_id prompt today) = some s' →
      s.last_returned_offset ≤ s'.last_returned_offset) := by
  constructor
  · intro n s out eng' s' hs hrun hs'
    rw [gmr_some env now eng _ n s hs] at hrun
    have hl := servePage_lro env now eng _ s s.last_returned_offset n out eng' hrun s' hs'
    rw [hl]
    exact Nat.le_add_right _ _
  · intro offset n s out eng' s' hs hoff hrun hs'
    by_cases hz : s.results.length = 0
    · rw [swo_existing_empty env plan div now today eng prompt user_id offset n s hs hz] at hrun
      simp at hrun
    · rw [swo_existing env plan div now today eng prompt user_id offset n s hs hz] at hrun
      have hl := servePage_lro env now eng _ s offset n out eng' hrun s' hs'
      rw [hl]
      omega

/-- Witness for the amended C4: one continuation call on `engC4` advances
`last_returned_offset` from 6 to 8. -/
theorem c4_monotone_amended_witness :
    lookupAssoc engC4.sessions (generate_session_id "u" "p" 0) = some sessC4
    ∧ sessC4.last_returned_offset ≤ sessC4after.last_returned_offset :=
  ⟨rfl, (c4_monotone_amended envE planA divB 0 0 engC4 "p" "u").1 2 sessC4 c4wPage
    engC4after sessC4after rfl rfl rfl⟩

/-- C10: when the stored session already holds `offset + count` results and
its buffer is non-empty, either public operation returns a page without
raising, and the entire engine mutation is the stored session with only
`last_returned_offset` and `last_accessed` replaced — `results`, `queries`,
`query_positions` and `is_exhausted` (and every other field) unchanged. -/
theorem c10_frame (env : Source) (plan div : String → List String) (now today : Nat)
    (eng : SearchEngine) (prompt user_id : String) (offset count : Nat) (s : SearchSession)
    (hs : lookupAssoc eng.sessions (generate_session_id user_id prompt today) = some s)
    (hne : s.results ≠ []) :
    (offset + count ≤ s.results.length →
      (∃ p, (search_with_offset env plan div now today eng prompt user_id offset count).1
        = .ok p)
      ∧ (search_with_offset env plan div now today eng prompt user_id offset count).2 =
          eng.put (generate_session_id user_id prompt today)
            { s with last_accessed := now
                     last_returned_offset := offset + ((s.results.drop offset).take count).length })
    ∧ (s.last_returned_offset + count ≤ s.results.length →
      (∃ p, (get_more_results env now eng (generate_session_id user_id prompt today) count).1
        = .ok p)
      ∧ (get_more_results env now eng (generate_session_id user_id prompt today) count).2 =
          eng.put (generate_session_id user_id prompt today)
            { s with last_accessed := now
                     last_returned_offset := s.last_returned_offset
                       + ((s.results.drop s.last_returned_offset).take count).length }) := by
  have hlen0 : ¬ s.results.length = 0 := by
    simpa [List.length_eq_zero] using hne
  constructor
  · intro hle
    rw [swo_existing env plan div now today eng prompt user_id offset count s hs hlen0]
    apply servePage_noGrowth
    simp [SearchSession.needs_more_results, Nat.not_lt.mpr hle]
  · intro hle
    rw [gmr_some env now eng _ count s hs]
    apply servePage_noGrowth
    simp [SearchSession.needs_more_results, Nat.not_lt.mpr hle]

/-- Witness for C10 on the concrete `engC4` store. -/
theorem c10_frame_witness :
    sessC4.results ≠ []
    ∧ 0 + 3 ≤ sessC4.results.length
    ∧ (search_with_offset envE planA divB 0 0 engC4 "p" "u" 0 3).2 =
        engC4.put (generate_session_id "u" "p" 0)
          { sessC4 with last_accessed := 0
                        last_returned_offset := 0 + ((sessC4.results.drop 0).take 3).length } := by
  have h := c10_frame envE planA divB 0 0 engC4 "p" "u" 0 3 sessC4 rfl (by decide)
  exact ⟨by decide, by decide, (h.1 (by decide)).2⟩

/-- C7 counterexample: on a session whose buffer is empty, the second of
two identical `search_with_offset` calls does not return the same (empty)
slice as the first: it raises `NameError`, because the zero-result
fallback branch references `inferred_locations`, which is only assigned in
the session-creation branch. The session's results list is unchanged ([])
between the calls. -/
theorem c7_repeat_call_raises :
    (search_with_offset envE planA divB 0 0 ⟨[]⟩ "p" "u" 0 3).1 =
      .ok { results := [], offset := 0, results_returned := 0,
            total_results_available := 0, has_more := false,
            next_offset := none, is_exhausted := true }
    ∧ ((lookupAssoc (search_with_offset envE planA divB 0 0 ⟨[]⟩ "p" "u" 0 3).2.sessions
         (generate_session_id "u" "p" 0)).map SearchSession.results) = some []
    ∧ (search_with_offset envE planA divB 0 0
        (search_with_offset envE planA divB 0 0 ⟨[]⟩ "p" "u" 0 3).2 "p" "u" 0 3).1 =
      .error .nameError :=
  ⟨rfl, rfl, rfl⟩

/-- C7 amended: two calls with the same `(session_id, offset, count)`
between which the session's results list is unchanged return identical
slices, provided the results list is non-empty (an empty list routes the
second call into the broken fallback branch instead). -/
theorem c7_determinism_amended (env : Source) (plan div : String → List String)
    (now1 now2 today : Nat) (eng : SearchEngine) (prompt user_id : String)
    (offset count : Nat) (s s1 : SearchSession) (out1 out2 : PageOut)
    (eng1 eng2 : SearchEngine)
    (hs : lookupAssoc eng.sessions (generate_session_id user_id prompt today) = some s)
    (hne : s.results ≠ [])
    (h1 : search_with_offset env plan div now1 today eng prompt user_id offset count
      = (.ok out1, eng1))
    (hs1 : lookupAssoc eng1.sessions (generate_session_id user_id prompt today) = some s1)
    (hsame : s1.results = s.results)
    (h2 : search_with_offset env plan div now2 today eng1 prompt user_id offset count
      = (.ok out2, eng2)) :
    out1.results = out2.results := by
  have hlen0 : ¬ s.results.length = 0 := by
    simpa [List.length_eq_zero] using hne
  rw [swo_existing env plan div now1 today eng prompt user_id offset count s hs hlen0] at h1
  obtain ⟨herr1, hres1, heng1⟩ := servePage_ok h1
  have hs1b := hs1
  rw [heng1] at hs1b
  simp only [SearchEngine.put] at hs1b
  rw [lookupAssoc_insertAssoc] at hs1b
  have heq := Option.some.inj hs1b
  set sG1 := (grownSession env now1 s (offset + count)).1 with hsG1
  have hres : sG1.results = s.results := by
    rw [← heq] at hsame
    exact hsame
  have hneedsG : sG1.needs_more_results (offset + count) = false :=
    grownSession_stabilizes env now1 s (offset + count) herr1 hres
  have hneedsS1 : s1.needs_more_results (offset + count) = false := by
    rw [← heq]
    exact hneedsG
  have hlenS1 : ¬ s1.results.length = 0 := by
    rw [hsame]
    exact hlen0
  rw [swo_existing env plan div now2 today eng1 prompt user_id offset count s1 hs1 hlenS1] at h2
  obtain ⟨herr2, hres2, _⟩ := servePage_ok h2
  have hG2 : grownSession env now2 s1 (offset + count) = (s1, none) :=
    grownSession_noGrowth env now2 s1 (offset + count) hneedsS1
  rw [hG2] at hres2
  have h1' : out1.results = (s.results.drop offset).take count := by
    rw [hres1, hres]
  have h2' : out2.results = (s1.results.drop offset).take count := hres2
  rw [hsame] at h2'
  exact h1'.trans h2'.symm

/-- Witness for the amended C7: two identical calls on a one-item session
return the same one-item slice. -/
theorem c7_determinism_amended_witness :
    sW.results ≠ [] ∧ sW1.results = sW.results ∧ pageW.results = pageW.results := by
  have h := c7_determinism_amended envE planA divB 0 0 0 engW "p" "u" 0 1 sW sW1
    pageW pageW engW1 engW1 rfl (by decide) rfl rfl rfl rfl
  exact ⟨by decide, rfl, h⟩

/-- C5: under the source contract that a returned page never repeats a
link, any contiguous-offset sequence of pagination calls on one session
(explicit-offset calls continuing exactly at `last_returned_offset`,
continuation calls by construction) returns slices whose concatenation is
an initial segment of the session's final buffer: the union of all
returned items has no two items with the same link, and no buffered item
below the served watermark is ever skipped. -/
theorem c5_no_duplicate_no_skip {env : Source} (hB : BatchNodup env)
    (plan div : String → List String) (now today : Nat) (prompt user : String)
    (calls : List ApiCall) (slices : List (List ResultItem)) (engF : SearchEngine)
    (hrun : runCalls env plan div now today prompt user calls ⟨[]⟩
      = some (slices, engF, true)) :
    ((slices.flatten.map (fun r => r.link)).Nodup)
    ∧ ∀ s, lookupAssoc engF.sessions (generate_session_id user prompt today) = some s →
        ∃ t, s.results = slices.flatten ++ t := by
  have hInv0 : SessionInv (generate_session_id user prompt today) ⟨[]⟩ [] := rfl
  have hFin := runCalls_inv hB plan div now today prompt user calls ⟨[]⟩ [] slices engF
    hInv0 hrun
  rw [List.nil_append] at hFin
  unfold SessionInv at hFin
  cases hLook : lookupAssoc engF.sessions (generate_session_id user prompt today) with
  | none =>
    rw [hLook] at hFin
    have hflat : slices.flatten = [] := hFin
    constructor
    · rw [hflat]
      exact List.nodup_nil
    · intro s hs
      exact absurd hs (by simp)
  | some s0 =>
    rw [hLook] at hFin
    have hFin' : slices.flatten = s0.results.take s0.last_returned_offset
        ∧ s0.last_returned_offset ≤ s0.results.length
        ∧ (s0.results.map (fun r => r.link)).Nodup := hFin
    constructor
    · rw [hFin'.1]
      have hsub : ((s0.results.take s0.last_returned_offset).map (fun r => r.link)).Sublist
          (s0.results.map (fun r => r.link)) := (List.take_sublist _ _).map _
      exact hFin'.2.2.sublist hsub
    · intro s hs
      obtain rfl := Option.some.inj hs
      refine ⟨s0.results.drop s0.last_returned_offset, ?_⟩
      rw [hFin'.1]
      exact (List.take_append_drop _ _).symm

/-- Witness for C5: the constant one-item source satisfies the page
contract and a concrete one-call run returns a duplicate-free union. -/
theorem c5_no_duplicate_no_skip_witness :
    BatchNodup envOne ∧ ((c5wSlices.flatten).map (fun r => r.link)).Nodup := by
  have hB : BatchNodup envOne := by
    intro q st n
    show (List.map (fun r => r.link) [itB]).Nodup
    decide
  exact ⟨hB, (c5_no_duplicate_no_skip hB planA divB 0 0 "p" "u" [ApiCall.swo 0 1]
    c5wSlices c5wEng rfl).1⟩
